import Mathlib

/-!
Verification development for the Bay Club court-booking automation app.

The definitions below are shallow embeddings of the TypeScript source:
  * `extractStartTime`, `timeMatches`  — BayClubBot.extractStartTime / timeMatches
    (client/src/hooks/useChat.ts, second embedded document, lines 573-598)
  * `jsTrim`                           — JavaScript String.prototype.trim as used there
  * `dedupeJS`                         — the `[...new Set(xs)]` dedupe in getAvailableTimes
  * `getAvailableTimes`                — BayClubBot.getAvailableTimes over a page model
  * `bookCourt`                        — BayClubBot.bookCourt over a page model
  * `toolFunc`                         — BookingToolManager.createTool's `func`
    (server/tools/booking-tool.ts)
  * `handleConnect` / `handleDisconnect` / `evictionTimerFire` / `handleMessageStart`
                                       — the socket.io session registry (server entry file)
Fallible page interactions are modelled by explicit data (Option text, click-throw
flags); a strategy that throws inside its own try/catch behaves exactly as one
yielding zero elements, and is modelled that way.
-/

/-- JS regex digit class `\d` = [0-9], same as `Char.isDigit`. -/
def isDigitCh (c : Char) : Bool := c.isDigit

/-- BayClubBot.extractStartTime: `timeStr.match(/^(\d{1,2}:\d{2})/)`, returning the
captured group or the empty string.  The greedy `\d{1,2}` first tries a two-digit
hour and backtracks to one digit. -/
def extractStartTime (s : String) : String :=
  match s.data with
  | a :: b :: c :: d :: e :: _ =>
    if isDigitCh a && isDigitCh b && (c == ':') && isDigitCh d && isDigitCh e then
      String.mk [a, b, c, d, e]
    else if isDigitCh a && (b == ':') && isDigitCh c && isDigitCh d then
      String.mk [a, b, c, d]
    else ""
  | [a, b, c, d] =>
    if isDigitCh a && (b == ':') && isDigitCh c && isDigitCh d then
      String.mk [a, b, c, d]
    else ""
  | _ => ""

/-- BayClubBot.timeMatches: strict comparison of the two extracted start times. -/
def timeMatches (userTime pageTime : String) : Bool :=
  let userStartTime := extractStartTime userTime
  let pageStartTime := extractStartTime pageTime
  if userStartTime = "" ∨ pageStartTime = "" then false
  else if userStartTime = pageStartTime then true
  else false

/-- Whitespace removed by JavaScript `String.prototype.trim` (ASCII portion). -/
def isJsWhitespace (c : Char) : Bool :=
  c == ' ' || c == '\t' || c == '\n' || c == '\r' || c == '\x0b' || c == '\x0c'

/-- Drop leading JS whitespace from a character list. -/
def ltrimCL (l : List Char) : List Char := l.dropWhile isJsWhitespace

/-- Drop trailing JS whitespace from a character list. -/
def rtrimCL (l : List Char) : List Char := (l.reverse.dropWhile isJsWhitespace).reverse

/-- JavaScript `s.trim()`. -/
def jsTrim (s : String) : String := String.mk (rtrimCL (ltrimCL s.data))

/-- `listStartsWith n h` : the list `h` begins with `n`. -/
def listStartsWith : List Char → List Char → Bool
  | [], _ => true
  | _ :: _, [] => false
  | a :: as, b :: bs => a == b && listStartsWith as bs

/-- `hasSubstr n h` : `n` occurs contiguously inside `h` (JS `String.includes`). -/
def hasSubstr (needle : List Char) : List Char → Bool
  | [] => needle.isEmpty
  | b :: bs => listStartsWith needle (b :: bs) || hasSubstr needle bs

/-- `trimmed.includes(':')`. -/
def containsColon (s : String) : Bool := hasSubstr [':'] s.data

/-- `trimmed.toUpperCase().includes('AM') || trimmed.toUpperCase().includes('PM')`. -/
def containsAMPM (s : String) : Bool :=
  let up := s.data.map Char.toUpper
  hasSubstr ['A', 'M'] up || hasSubstr ['P', 'M'] up

/-- The colon + AM/PM text filter applied to slot-label candidates in
getAvailableTimes. -/
def isTimeText (s : String) : Bool := containsColon s && containsAMPM s

/-- First-occurrence dedup with an accumulator of already-seen labels; this is the
iteration-order semantics of `[...new Set(xs)]`. -/
def dedupeGo : List String → List String → List String
  | _, [] => []
  | seen, x :: xs =>
    if x ∈ seen then dedupeGo seen xs else x :: dedupeGo (x :: seen) xs

/-- `[...new Set(availableTimes)]` in getAvailableTimes. -/
def dedupeJS (xs : List String) : List String := dedupeGo [] xs

/-- One DOM element as seen by the driver: its text content (none if missing or if
reading it threw, which the per-element catch skips) and its visibility. -/
structure PageElem where
  text : Option String
  visible : Bool
deriving DecidableEq

/-- The page as seen by getAvailableTimes: the elements produced by each of the
four enumeration strategies.  A strategy whose lookup throws is caught and
contributes zero elements, so it is modelled by an empty list. -/
structure SlotPage where
  m1 : List PageElem
  m2 : List PageElem
  m3 : List PageElem
  divs : List PageElem
deriving DecidableEq

/-- Method 4 of getAvailableTimes: scan all divs, keeping those whose trimmed text
has a colon and AM/PM, is at most 15 characters, and which are visible. -/
def method4 (divs : List PageElem) : List PageElem :=
  divs.filter fun e =>
    match e.text with
    | some t => isTimeText (jsTrim t) && (jsTrim t).length ≤ 15 && e.visible
    | none => false

/-- The escalation over the four strategies: the first one yielding ≥ 1 element. -/
def timeSlotElements (p : SlotPage) : List PageElem :=
  if p.m1 ≠ [] then p.m1
  else if p.m2 ≠ [] then p.m2
  else if p.m3 ≠ [] then p.m3
  else method4 p.divs

/-- The collection loop of getAvailableTimes: read each element's text, trim it,
keep it when it passes the colon + AM/PM filter. -/
def collectTimes : List PageElem → List String
  | [] => []
  | e :: rest =>
    match e.text with
    | some t =>
      if isTimeText (jsTrim t) then jsTrim t :: collectTimes rest
      else collectTimes rest
    | none => collectTimes rest

/-- BayClubBot.getAvailableTimes over the page model: enumerate, filter, dedupe. -/
def getAvailableTimes (p : SlotPage) : List String :=
  dedupeJS (collectTimes (timeSlotElements p))

/-- A slot element in bookCourt's re-enumeration: text, visibility, and whether a
plain click / a forced click would throw. -/
structure SlotElem where
  text : Option String
  visible : Bool
  clickThrows : Bool
  forceClickThrows : Bool
deriving DecidableEq

/-- A button element in the confirmation phase. -/
structure BtnElem where
  text : Option String
  visible : Bool
  clickThrows : Bool
  forceClickThrows : Bool
deriving DecidableEq

/-- The page behaviour visible to one bookCourt call.  `enumThrows` models the
initial `page.$$` enumeration throwing (an infrastructure fault inside the
outer try); `buddySucceeds` collapses the three companion-selection fallbacks. -/
structure BookEnv where
  enumThrows : Bool
  slotElems : List SlotElem
  buddySucceeds : Bool
  buttons : List BtnElem
deriving DecidableEq

/-- The slot-selection loop of bookCourt: iterate elements, on the first element
whose trimmed text `timeMatches` the request try a plain then a forced click
(a forced-click throw is swallowed by the per-element catch and the loop goes
on); stop at the first successful click.  Returns whether a click succeeded. -/
def findAndClickSlot (time : String) : List SlotElem → Bool
  | [] => false
  | e :: rest =>
    match e.text with
    | some t =>
      if timeMatches time (jsTrim t) then
        if e.visible then
          if ¬e.clickThrows then true
          else if ¬e.forceClickThrows then true
          else findAndClickSlot time rest
        else findAndClickSlot time rest
      else findAndClickSlot time rest
    | none => findAndClickSlot time rest

/-- `trimmed.includes('confirm') || ... ('book') || ... ('submit') || ... ('complete')`
over the lower-cased trimmed button text. -/
def isConfirmText (t : String) : Bool :=
  let low := (jsTrim t).data.map Char.toLower
  hasSubstr ['c', 'o', 'n', 'f', 'i', 'r', 'm'] low ||
  hasSubstr ['b', 'o', 'o', 'k'] low ||
  hasSubstr ['s', 'u', 'b', 'm', 'i', 't'] low ||
  hasSubstr ['c', 'o', 'm', 'p', 'l', 'e', 't', 'e'] low

/-- The confirm-button scan: first visible button with confirm-like text that can
be clicked (plain, else forced; both throwing moves on to the next button). -/
def clickConfirmBtn : List BtnElem → Bool
  | [] => false
  | b :: rest =>
    match b.text with
    | some t =>
      if b.visible && isConfirmText t then
        if ¬b.clickThrows then true
        else if ¬b.forceClickThrows then true
        else clickConfirmBtn rest
      else clickConfirmBtn rest
    | none => clickConfirmBtn rest

/-- The last-resort scan: click the first visible button of any kind (a throwing
click is caught and the scan moves on; no forced retry here). -/
def clickAnyVisible : List BtnElem → Bool
  | [] => false
  | b :: rest => if b.visible && ¬b.clickThrows then true else clickAnyVisible rest

/-- BayClubBot.bookCourt.  `stag = false` models `this.stagehand === null`, the
only throw outside the outer try; every failure inside the try (including the
modelled infrastructure fault `enumThrows`) is converted to `ok false` by the
outer catch, exactly as in the source. -/
def bookCourt (stag : Bool) (env : BookEnv) (time : String) : Except String Bool :=
  if ¬stag then Except.error "Stagehand not initialized."
  else if env.enumThrows then Except.ok false
  else if ¬findAndClickSlot time env.slotElems then Except.ok false
  else if ¬env.buddySucceeds then Except.ok false
  else if clickConfirmBtn env.buttons then Except.ok true
  else if clickAnyVisible env.buttons then Except.ok true
  else Except.ok false

/-- The result of dateParser.parse/format and `toLocaleDateString` for the
requested date: the dispatcher only uses these two renderings. -/
structure ParsedDate where
  formatted : String
  dayOfWeek : String
deriving DecidableEq

/-- Observable interactions performed by the booking tool's `func`. -/
inductive ToolEvent where
  | browserStart
  | navigate (sport : String) (day : String)
  | queryTimes
  | bookAttempt (time : String)
  | browserClose
  | calendarAdd (sport : String) (date : ParsedDate) (time : String) (buddy : String)
deriving DecidableEq

/-- BookingToolManager state: the lazy-browser flag and the calendar flag. -/
structure ToolState where
  initialized : Bool
  calendarInitialized : Bool
deriving DecidableEq

/-- The external outcomes of one `func` invocation: init+login result, the parsed
date, the navigation result, the slot page, the bookCourt boolean, and the
calendar collaborator's boolean. -/
structure ToolEnv where
  initResult : Except String Unit
  parsedDate : Option ParsedDate
  navResult : Except String Unit
  page : SlotPage
  bookSuccess : Bool
  calendarResult : Bool

/-- The tool's action argument (z.enum values). -/
inductive ToolAction where
  | query_times
  | book
deriving DecidableEq

/-- BookingToolManager.createTool's `func` (server/tools/booking-tool.ts 87-159),
returning the user-facing string, the new manager state, and the interaction
trace.  Mirrors the source order: ensureInitialized, date parse, then the
action branches; the outer catch renders any thrown message as `Error: ...`. -/
def toolFunc (env : ToolEnv) (st : ToolState) (action : ToolAction)
    (sport : String) (dateStr : String) (time : Option String) :
    String × ToolState × List ToolEvent :=
  let startEvents : List ToolEvent :=
    if st.initialized then [] else [ToolEvent.browserStart]
  match (if st.initialized then Except.ok () else env.initResult) with
  | Except.error e => (s!"Error: {e}", st, startEvents)
  | Except.ok _ =>
    let st1 : ToolState := { st with initialized := true }
    match env.parsedDate with
    | none =>
      (s!"Error: Could not parse date \"{dateStr}\". Please provide a valid date like \"today\", \"tomorrow\", \"wednesday\", \"feb 10\", etc.",
       st1, startEvents)
    | some pd =>
      match action with
      | ToolAction.query_times =>
        let evs := startEvents ++ [ToolEvent.navigate sport pd.dayOfWeek]
        match env.navResult with
        | Except.error e => (s!"Error: {e}", st1, evs)
        | Except.ok _ =>
          let evs := evs ++ [ToolEvent.queryTimes]
          let times := getAvailableTimes env.page
          if times.isEmpty then
            (s!"No available {sport} courts on {pd.formatted}.", st1, evs)
          else
            let body := String.intercalate "\n" (times.map fun t => s!"- {t}")
            (s!"Available {sport} courts on {pd.formatted}:\n{body}", st1, evs)
      | ToolAction.book =>
        match time with
        | none =>
          ("Error: Time is required for booking. Please specify a time slot.",
           st1, startEvents)
        | some t =>
          let evs := startEvents ++ [ToolEvent.navigate sport pd.dayOfWeek]
          match env.navResult with
          | Except.error e => (s!"Error: {e}", st1, evs)
          | Except.ok _ =>
            let evs := evs ++ [ToolEvent.bookAttempt t]
            if env.bookSuccess then
              let st2 : ToolState := { st1 with initialized := false }
              let evs := evs ++ [ToolEvent.browserClose]
              if st.calendarInitialized then
                let evs := evs ++ [ToolEvent.calendarAdd sport pd t "Samuel Wang"]
                let calMsg : String :=
                  if env.calendarResult then " 📅 Added to your Google Calendar!" else ""
                (s!"Successfully booked {sport} court on {pd.formatted} at {t} with Samuel Wang!{calMsg}",
                 st2, evs)
              else
                (s!"Successfully booked {sport} court on {pd.formatted} at {t} with Samuel Wang!",
                 st2, evs)
            else
              (s!"Failed to book {sport} court on {pd.formatted} at {t}. The slot may no longer be available.",
               st1, evs)

/-- A chat message as stored in `pendingMessages` ({from, text, timestamp}). -/
structure ChatMsg where
  origin : String
  text : String
  timestamp : String
deriving DecidableEq

/-- One entry of the server's `sessions` map. -/
structure SessState where
  agentAlive : Bool
  socketId : Option Nat
  pendingMessages : List ChatMsg
  isProcessing : Bool
deriving DecidableEq

/-- Association-list lookup (the `Map.get` of the two server maps). -/
def alookup {α β : Type} [DecidableEq α] : List (α × β) → α → Option β
  | [], _ => none
  | (k, v) :: rest, k' => if k' = k then some v else alookup rest k'

/-- Association-list set (the `Map.set`): replace the first binding or append. -/
def aupd {α β : Type} [DecidableEq α] : List (α × β) → α → β → List (α × β)
  | [], k, v => [(k, v)]
  | (k', v') :: rest, k, v =>
    if k = k' then (k, v) :: rest else (k', v') :: aupd rest k v

/-- Association-list delete (the `Map.delete`). -/
def adel {α β : Type} [DecidableEq α] (l : List (α × β)) (k : α) : List (α × β) :=
  l.filter fun p => ¬p.1 = k

/-- The server's two registries: `sessions` and `socketToSession`. -/
structure ServerState where
  sessions : List (String × SessState)
  socketToSession : List (Nat × String)
deriving DecidableEq

/-- Observable actions of the socket handlers: socket emissions, the dispatch of a
message to the per-session agent, and an agent teardown. -/
inductive ServerEvent where
  | status (sock : Nat) (text : String)
  | ready (sock : Nat)
  | message (sock : Nat) (msg : ChatMsg)
  | typing (sock : Nat) (b : Bool)
  | errMsg (sock : Nat) (text : String)
  | agentChat (sessionId : String) (text : String)
  | agentCleanup (sessionId : String)
deriving DecidableEq

/-- The reconnect branch of `io.on('connection')` (server entry, lines 106-134):
rebind the socket mapping, re-point `socketId`, emit the status pair, then flush
`pendingMessages` in order and clear the queue. -/
def reconnectBranch (srv : ServerState) (sock : Nat) (sid : String)
    (sess : SessState) : ServerState × List ServerEvent :=
  let map1 :=
    match sess.socketId with
    | some old => adel srv.socketToSession old
    | none => srv.socketToSession
  let map2 := aupd map1 sock sid
  let sessA : SessState := { sess with socketId := some sock }
  let statusEvs : List ServerEvent :=
    if sessA.isProcessing then
      [ServerEvent.status sock "Processing your request...", ServerEvent.typing sock true]
    else
      [ServerEvent.status sock "Reconnected! Ready to help.", ServerEvent.ready sock]
  if sessA.pendingMessages.isEmpty then
    ({ sessions := aupd srv.sessions sid sessA, socketToSession := map2 }, statusEvs)
  else
    let dEvs := (sessA.pendingMessages.map fun m => ServerEvent.message sock m)
      ++ [ServerEvent.typing sock false]
    ({ sessions := aupd srv.sessions sid { sessA with pendingMessages := [] },
       socketToSession := map2 }, statusEvs ++ dEvs)

/-- `io.on('connection')`: the attach operation.  `auth` is the handshake session
id; `creds` models the presence of the three environment credentials and
`initOk` the success of `agent.initialize()` for a brand-new session. -/
def handleConnect (srv : ServerState) (sock : Nat) (auth : Option String)
    (creds initOk : Bool) : ServerState × List ServerEvent :=
  match auth with
  | none => (srv, [ServerEvent.errMsg sock "No session ID provided"])
  | some sid =>
    match alookup srv.sessions sid with
    | some sess => reconnectBranch srv sock sid sess
    | none =>
      if ¬creds then
        (srv, [ServerEvent.errMsg sock "Server configuration error: Missing credentials"])
      else if initOk then
        ({ sessions := aupd srv.sessions sid
             { agentAlive := true, socketId := some sock,
               pendingMessages := [], isProcessing := false },
           socketToSession := aupd srv.socketToSession sock sid },
         [ServerEvent.status sock "Initializing booking agent...",
          ServerEvent.status sock "Connected! Ask me to book a tennis or pickleball court.",
          ServerEvent.ready sock])
      else
        (srv, [ServerEvent.status sock "Initializing booking agent...",
               ServerEvent.errMsg sock "Failed to initialize booking agent"])

/-- `socket.on('disconnect')` (server entry, lines 239-266): clear `socketId`,
drop the socket mapping, and schedule a 5-minute eviction timer for the session
(returned as `some sid`); the session entry itself is kept. -/
def handleDisconnect (srv : ServerState) (sock : Nat) :
    ServerState × Option String :=
  match alookup srv.socketToSession sock with
  | none => (srv, none)
  | some sid =>
    match alookup srv.sessions sid with
    | some sess =>
      ({ sessions := aupd srv.sessions sid { sess with socketId := none },
         socketToSession := adel srv.socketToSession sock }, some sid)
    | none =>
      ({ srv with socketToSession := adel srv.socketToSession sock }, none)

/-- The eviction timer body: if the session still exists and is still detached
(`socketId === null`), clean up its agent and remove the entry; otherwise do
nothing.  The timer is never cancelled — reconnection is detected here. -/
def evictionTimerFire (srv : ServerState) (sid : String) :
    ServerState × List ServerEvent :=
  match alookup srv.sessions sid with
  | some sess =>
    if sess.socketId = none then
      ({ sessions := adel srv.sessions sid, socketToSession := srv.socketToSession },
       [ServerEvent.agentCleanup sid])
    else (srv, [])
  | none => (srv, [])

/-- `socket.on('message')` (server entry, lines 186-207) up to the agent dispatch
point (the `await sess.agent.chat(...)`): resolve the session, mark it
processing, emit the typing indicator, and hand the text to the agent.  There
is no check of `isProcessing` before dispatching. -/
def handleMessageStart (srv : ServerState) (sock : Nat) (text : String) :
    ServerState × List ServerEvent :=
  match alookup srv.socketToSession sock with
  | none => (srv, [ServerEvent.errMsg sock "Session not found"])
  | some sid =>
    match alookup srv.sessions sid with
    | none => (srv, [ServerEvent.errMsg sock "Session not found"])
    | some sess =>
      ({ srv with sessions := aupd srv.sessions sid { sess with isProcessing := true } },
       [ServerEvent.typing sock true, ServerEvent.agentChat sid text])

/-- The messages emitted to the freshly attached socket, in emission order. -/
def deliveredMsgs : List ServerEvent → List ChatMsg
  | [] => []
  | ServerEvent.message _ m :: rest => m :: deliveredMsgs rest
  | _ :: rest => deliveredMsgs rest

/-- The agent teardowns contained in a trace. -/
def cleanups : List ServerEvent → List String
  | [] => []
  | ServerEvent.agentCleanup s :: rest => s :: cleanups rest
  | _ :: rest => cleanups rest

/-- Fixture: a pending assistant reply buffered while detached. -/
def msgT1 : ChatMsg := { origin := "assistant", text := "Booked!", timestamp := "t1" }

/-- Fixture: a second pending message buffered while detached. -/
def msgT2 : ChatMsg := { origin := "system", text := "Bye", timestamp := "t2" }

/-- Fixture: a detached session holding two pending messages. -/
def sessDetached : SessState :=
  { agentAlive := true, socketId := none, pendingMessages := [msgT1, msgT2],
    isProcessing := false }

/-- Fixture: a registry holding the detached session under id "s1". -/
def srvDetached : ServerState :=
  { sessions := [("s1", sessDetached)], socketToSession := [] }

/-- Fixture: a session with an action in flight (`isProcessing = true`). -/
def busySess : SessState :=
  { agentAlive := true, socketId := some 7, pendingMessages := [], isProcessing := true }

/-- Fixture: a registry holding the busy session attached to socket 7. -/
def busySrv : ServerState :=
  { sessions := [("s1", busySess)], socketToSession := [(7, "s1")] }

theorem dropWhile_self_eq {α : Type} (p : α → Bool) :
    ∀ l : List α, List.dropWhile p (List.dropWhile p l) = List.dropWhile p l
  | [] => rfl
  | x :: xs => by
    by_cases h : p x
    · simp only [List.dropWhile_cons, h, if_true]
      exact dropWhile_self_eq p xs
    · simp [List.dropWhile_cons, h]

theorem dropWhile_len_le {α : Type} (p : α → Bool) :
    ∀ l : List α, (List.dropWhile p l).length ≤ l.length
  | [] => Nat.le_refl 0
  | x :: xs => by
    by_cases h : p x
    · simp only [List.dropWhile_cons, h, if_true]
      exact Nat.le_trans (dropWhile_len_le p xs) (Nat.le_succ _)
    · simp [List.dropWhile_cons, h]

theorem dropWhile_head_false {α : Type} (p : α → Bool) (c : α) (l : List α)
    (h : List.dropWhile p (c :: l) = c :: l) : p c = false := by
  by_cases hp : p c
  · exfalso
    rw [List.dropWhile_cons, if_pos hp] at h
    have hle := dropWhile_len_le p l
    rw [h] at hle
    simp at hle
  · simpa using hp

theorem dropWhile_decomp {α : Type} (p : α → Bool) :
    ∀ l : List α, ∃ t, l = t ++ List.dropWhile p l
  | [] => ⟨[], rfl⟩
  | x :: xs => by
    by_cases h : p x
    · obtain ⟨t, ht⟩ := dropWhile_decomp p xs
      refine ⟨x :: t, ?_⟩
      simp only [List.dropWhile_cons, h, if_true, List.cons_append]
      exact congrArg (x :: ·) ht
    · exact ⟨[], by simp [List.dropWhile_cons, h]⟩

theorem ltrimCL_idem (l : List Char) : ltrimCL (ltrimCL l) = ltrimCL l :=
  dropWhile_self_eq isJsWhitespace l

theorem rtrimCL_idem (l : List Char) : rtrimCL (rtrimCL l) = rtrimCL l := by
  unfold rtrimCL
  rw [List.reverse_reverse, dropWhile_self_eq]

theorem rtrimCL_decomp (l : List Char) : ∃ t, l = rtrimCL l ++ t := by
  obtain ⟨t, ht⟩ := dropWhile_decomp isJsWhitespace l.reverse
  refine ⟨t.reverse, ?_⟩
  unfold rtrimCL
  calc l = l.reverse.reverse := (List.reverse_reverse l).symm
    _ = (t ++ List.dropWhile isJsWhitespace l.reverse).reverse := by rw [← ht]
    _ = (List.dropWhile isJsWhitespace l.reverse).reverse ++ t.reverse := by
          rw [List.reverse_append]

theorem ltrim_rtrim_of_ltrimmed (l : List Char) (h : ltrimCL l = l) :
    ltrimCL (rtrimCL l) = rtrimCL l := by
  obtain ⟨t, ht⟩ := rtrimCL_decomp l
  cases hr : rtrimCL l with
  | nil => rfl
  | cons c r =>
    rw [hr] at ht
    have hl : l = c :: (r ++ t) := by simpa using ht
    have hcf : isJsWhitespace c = false := by
      apply dropWhile_head_false isJsWhitespace c (r ++ t)
      have := h
      unfold ltrimCL at this
      rw [hl] at this
      exact this
    unfold ltrimCL
    simp [List.dropWhile_cons, hcf]

theorem jsTrim_idem (s : String) : jsTrim (jsTrim s) = jsTrim s := by
  unfold jsTrim
  have hdata : (String.mk (rtrimCL (ltrimCL s.data))).data = rtrimCL (ltrimCL s.data) := rfl
  rw [hdata]
  have h1 : ltrimCL (ltrimCL s.data) = ltrimCL s.data := ltrimCL_idem s.data
  have h2 : ltrimCL (rtrimCL (ltrimCL s.data)) = rtrimCL (ltrimCL s.data) :=
    ltrim_rtrim_of_ltrimmed (ltrimCL s.data) h1
  rw [h2, rtrimCL_idem]

theorem dedupeGo_not_mem_seen :
    ∀ (xs seen : List String) (y : String), y ∈ dedupeGo seen xs → y ∉ seen
  | [], _, _, h => by simp [dedupeGo] at h
  | x :: xs, seen, y, h => by
    by_cases hx : x ∈ seen
    · rw [dedupeGo, if_pos hx] at h
      exact dedupeGo_not_mem_seen xs seen y h
    · rw [dedupeGo, if_neg hx] at h
      rcases List.mem_cons.mp h with h1 | h2
      · exact h1 ▸ hx
      · have := dedupeGo_not_mem_seen xs (x :: seen) y h2
        intro hy
        exact this (List.mem_cons_of_mem x hy)

theorem dedupeGo_subset :
    ∀ (xs seen : List String) (y : String), y ∈ dedupeGo seen xs → y ∈ xs
  | [], _, _, h => by simp [dedupeGo] at h
  | x :: xs, seen, y, h => by
    by_cases hx : x ∈ seen
    · rw [dedupeGo, if_pos hx] at h
      exact List.mem_cons_of_mem x (dedupeGo_subset xs seen y h)
    · rw [dedupeGo, if_neg hx] at h
      rcases List.mem_cons.mp h with h1 | h2
      · exact h1 ▸ List.mem_cons_self x xs
      · exact List.mem_cons_of_mem x (dedupeGo_subset xs (x :: seen) y h2)

theorem dedupeGo_nodup : ∀ (xs seen : List String), (dedupeGo seen xs).Nodup
  | [], _ => List.nodup_nil
  | x :: xs, seen => by
    by_cases hx : x ∈ seen
    · rw [dedupeGo, if_pos hx]
      exact dedupeGo_nodup xs seen
    · rw [dedupeGo, if_neg hx]
      refine List.nodup_cons.mpr ⟨?_, dedupeGo_nodup xs (x :: seen)⟩
      intro hmem
      exact dedupeGo_not_mem_seen xs (x :: seen) x hmem (List.mem_cons_self x seen)

theorem dedupeGo_of_nodup :
    ∀ (xs seen : List String), xs.Nodup → (∀ x ∈ xs, x ∉ seen) → dedupeGo seen xs = xs
  | [], _, _, _ => rfl
  | x :: xs, seen, hnd, hdisj => by
    have hx : x ∉ seen := hdisj x (List.mem_cons_self x xs)
    rw [dedupeGo, if_neg hx]
    have hnd' := List.nodup_cons.mp hnd
    refine congrArg (x :: ·) (dedupeGo_of_nodup xs (x :: seen) hnd'.2 ?_)
    intro y hy
    intro hmem
    rcases List.mem_cons.mp hmem with h1 | h2
    · exact hnd'.1 (h1 ▸ hy)
    · exact hdisj y (List.mem_cons_of_mem x hy) h2

theorem dedupeJS_nodup (xs : List String) : (dedupeJS xs).Nodup :=
  dedupeGo_nodup xs []

/-- C6: the Slot Matcher's dedupe operation (the `[...new Set(xs)]` collapse used
by getAvailableTimes) is idempotent: `dedupe(dedupe(xs)) = dedupe(xs)` for every
list of slot-label strings. -/
theorem dedupe_idempotent (xs : List String) : dedupeJS (dedupeJS xs) = dedupeJS xs := by
  unfold dedupeJS
  exact dedupeGo_of_nodup (dedupeGo [] xs) [] (dedupeGo_nodup xs []) (by simp)

theorem dedupe_idempotent_witness :
    dedupeJS (dedupeJS ["2:30 - 4:00 PM", "2:30 - 4:00 PM", "4:00 - 5:30 PM"])
      = dedupeJS ["2:30 - 4:00 PM", "2:30 - 4:00 PM", "4:00 - 5:30 PM"] :=
  dedupe_idempotent ["2:30 - 4:00 PM", "2:30 - 4:00 PM", "4:00 - 5:30 PM"]

/-- C1: `timeMatches(T, L)` is true iff both extracted start times are non-empty
and character-identical; `matches("2:30 PM", "2:30 - 4:00 PM")` is true and
`matches("2:30", "12:30 - 2:00 PM")` is false. -/
theorem timeMatches_spec :
    (∀ T L : String, timeMatches T L = true ↔
      (extractStartTime T ≠ "" ∧ extractStartTime L ≠ "" ∧
        extractStartTime T = extractStartTime L))
    ∧ timeMatches "2:30 PM" "2:30 - 4:00 PM" = true
    ∧ timeMatches "2:30" "12:30 - 2:00 PM" = false := by
  refine ⟨fun T L => ?_, by decide, by decide⟩
  unfold timeMatches
  by_cases h1 : extractStartTime T = "" <;>
    by_cases h2 : extractStartTime L = "" <;>
      by_cases h3 : extractStartTime T = extractStartTime L <;>
        simp [h1, h2, h3]

theorem timeMatches_spec_witness : timeMatches "3:15" "3:15 - 4:45 PM" = true :=
  (timeMatches_spec.1 "3:15" "3:15 - 4:45 PM").mpr (by decide)

/-- C9: slot matching is symmetric, its result depends only on the two extracted
leading H:MM tokens, and in particular the AM/PM markers are ignored:
`timeMatches("2:30 AM", "2:30 - 4:00 PM")` is true. -/
theorem timeMatches_symmetric_ampm_insensitive :
    (∀ a b : String, timeMatches a b = timeMatches b a)
    ∧ (∀ a b a2 b2 : String, extractStartTime a = extractStartTime a2 →
        extractStartTime b = extractStartTime b2 →
        timeMatches a b = timeMatches a2 b2)
    ∧ timeMatches "2:30 AM" "2:30 - 4:00 PM" = true := by
  refine ⟨fun a b => ?_, fun a b a2 b2 h1 h2 => ?_, by decide⟩
  · unfold timeMatches
    by_cases h1 : extractStartTime a = "" <;>
      by_cases h2 : extractStartTime b = "" <;>
        simp [h1, h2, eq_comm]
  · unfold timeMatches
    rw [h1, h2]

theorem timeMatches_symmetric_witness :
    timeMatches "2:30 AM" "7:00 - 8:30 PM" = timeMatches "2:30 PM" "7:00 - 8:30 PM" :=
  timeMatches_symmetric_ampm_insensitive.2.1 "2:30 AM" "7:00 - 8:30 PM" "2:30 PM"
    "7:00 - 8:30 PM" (by decide) (by decide)

theorem collectTimes_mem :
    ∀ (elems : List PageElem) (y : String), y ∈ collectTimes elems →
      (∃ t, y = jsTrim t) ∧ isTimeText y = true
  | [], _, h => by simp [collectTimes] at h
  | e :: rest, y, h => by
    cases he : e.text with
    | none =>
      rw [collectTimes, he] at h
      exact collectTimes_mem rest y h
    | some t =>
      simp only [collectTimes, he] at h
      by_cases ht : isTimeText (jsTrim t)
      · rw [if_pos ht] at h
        rcases List.mem_cons.mp h with h1 | h2
        · exact ⟨⟨t, h1⟩, h1 ▸ ht⟩
        · exact collectTimes_mem rest y h2
      · rw [if_neg ht] at h
        exact collectTimes_mem rest y h

/-- C10: every string returned by getAvailableTimes is whitespace-trimmed,
contains a colon, contains AM or PM case-insensitively, and occurs exactly once
in the returned list, whichever enumeration strategy supplied the elements. -/
theorem getAvailableTimes_invariants (p : SlotPage) (x : String)
    (h : x ∈ getAvailableTimes p) :
    jsTrim x = x ∧ containsColon x = true ∧ containsAMPM x = true ∧
      (getAvailableTimes p).count x = 1 := by
  have hmem : x ∈ collectTimes (timeSlotElements p) :=
    dedupeGo_subset (collectTimes (timeSlotElements p)) [] x h
  obtain ⟨⟨t, hxt⟩, htime⟩ := collectTimes_mem (timeSlotElements p) x hmem
  have htrim : jsTrim x = x := by rw [hxt, jsTrim_idem]
  have hsplit : containsColon x = true ∧ containsAMPM x = true := by
    simpa [isTimeText] using htime
  refine ⟨htrim, hsplit.1, hsplit.2, ?_⟩
  exact List.count_eq_one_of_mem (dedupeJS_nodup _) h

theorem alookup_aupd {α β : Type} [DecidableEq α] :
    ∀ (l : List (α × β)) (k : α) (v : β), alookup (aupd l k v) k = some v
  | [], k, v => by simp [aupd, alookup]
  | (k', v') :: rest, k, v => by
    by_cases h : k = k'
    · simp [aupd, h, alookup]
    · simp [aupd, h, alookup, alookup_aupd rest k v]

theorem deliveredMsgs_append :
    ∀ a b : List ServerEvent, deliveredMsgs (a ++ b) = deliveredMsgs a ++ deliveredMsgs b
  | [], _ => rfl
  | e :: rest, b => by
    cases e <;> simp [deliveredMsgs, deliveredMsgs_append rest b]

theorem cleanups_append :
    ∀ a b : List ServerEvent, cleanups (a ++ b) = cleanups a ++ cleanups b
  | [], _ => rfl
  | e :: rest, b => by
    cases e <;> simp [cleanups, cleanups_append rest b]

theorem deliveredMsgs_map (sock : Nat) :
    ∀ l : List ChatMsg,
      deliveredMsgs (l.map fun m => ServerEvent.message sock m) = l
  | [] => rfl
  | m :: rest => by
    simp [deliveredMsgs, deliveredMsgs_map sock rest]

theorem cleanups_map_message (sock : Nat) :
    ∀ l : List ChatMsg,
      cleanups (l.map fun m => ServerEvent.message sock m) = []
  | [] => rfl
  | m :: rest => by
    simp [cleanups, cleanups_map_message sock rest]

/-- C3: the inbound-message handler performs no busy check.  Evaluating it on a
session whose `isProcessing` flag is already true (an action in flight) shows
the second message is dispatched straight to the agent — there is no
"still processing" rejection anywhere in its trace. -/
theorem busy_dispatch_not_rejected :
    busySess.isProcessing = true
    ∧ handleMessageStart busySrv 7 "book the 2:30 slot"
      = (busySrv,
         [ServerEvent.typing 7 true, ServerEvent.agentChat "s1" "book the 2:30 slot"]) := by
  decide

/-- C8: a detach followed by an attach with the same id before the eviction
window elapses leaves the Session registered with its agent intact, delivers
every pending message in original enqueue order, clears the queue, and the
later timer firing (never cancelled, but guarded on `socketId === null`) is a
no-op: no cleanup, no removal. -/
theorem reattach_before_eviction (srv : ServerState) (sock : Nat) (sid : String)
    (sess : SessState) (creds initOk : Bool)
    (hs : alookup srv.sessions sid = some sess) (hd : sess.socketId = none) :
    alookup (handleConnect srv sock (some sid) creds initOk).1.sessions sid
      = some { sess with socketId := some sock, pendingMessages := [] }
    ∧ deliveredMsgs (handleConnect srv sock (some sid) creds initOk).2
        = sess.pendingMessages
    ∧ cleanups (handleConnect srv sock (some sid) creds initOk).2 = []
    ∧ evictionTimerFire (handleConnect srv sock (some sid) creds initOk).1 sid
        = ((handleConnect srv sock (some sid) creds initOk).1, []) := by
  have hc : handleConnect srv sock (some sid) creds initOk
      = reconnectBranch srv sock sid sess := by
    simp only [handleConnect, hs]
  rw [hc]
  unfold reconnectBranch
  rw [hd]
  have hlook : ∀ s2 : SessState,
      alookup (aupd srv.sessions sid s2) sid = some s2 :=
    fun s2 => alookup_aupd srv.sessions sid s2
  cases hp : sess.pendingMessages with
  | nil =>
    cases hproc : sess.isProcessing <;>
      simp [hp, hproc, hlook, deliveredMsgs, cleanups, evictionTimerFire]
  | cons m rest =>
    cases hproc : sess.isProcessing <;>
      simp [hp, hproc, hlook, deliveredMsgs, cleanups, evictionTimerFire,
        deliveredMsgs_append, cleanups_append, deliveredMsgs_map sock,
        cleanups_map_message sock]

theorem reattach_before_eviction_witness :
    alookup (handleConnect srvDetached 9 (some "s1") true true).1.sessions "s1"
      = some { sessDetached with socketId := some 9, pendingMessages := [] }
    ∧ deliveredMsgs (handleConnect srvDetached 9 (some "s1") true true).2
        = sessDetached.pendingMessages
    ∧ cleanups (handleConnect srvDetached 9 (some "s1") true true).2 = []
    ∧ evictionTimerFire (handleConnect srvDetached 9 (some "s1") true true).1 "s1"
        = ((handleConnect srvDetached 9 (some "s1") true true).1, []) :=
  reattach_before_eviction srvDetached 9 "s1" sessDetached true true rfl rfl

/-- C4: bookCourt returns `ok true` only when a confirmation click succeeded;
slot-not-found and confirm-not-found produce `ok false`, not an exception; the
only exception escaping the outer catch is the missing-browser-handle guard
(`this.stagehand === null`), an infrastructure fault. -/
theorem bookCourt_error_policy :
    ∀ (stag : Bool) (env : BookEnv) (t : String),
      (bookCourt stag env t = Except.ok true →
        (clickConfirmBtn env.buttons = true ∨ clickAnyVisible env.buttons = true))
      ∧ (stag = true → findAndClickSlot t env.slotElems = false →
          bookCourt stag env t = Except.ok false)
      ∧ (stag = true → clickConfirmBtn env.buttons = false →
          clickAnyVisible env.buttons = false →
          bookCourt stag env t = Except.ok false)
      ∧ (∀ e, bookCourt stag env t = Except.error e → stag = false) := by
  intro stag env t
  refine ⟨?_, ?_, ?_, ?_⟩
  · intro h
    unfold bookCourt at h
    split_ifs at h with h1 h2 h3 h4 h5 h6 <;> simp_all
  · intro hs hslot
    unfold bookCourt
    simp [hs, hslot]
  · intro hs hc ha
    unfold bookCourt
    simp [hs, hc, ha]
  · intro e he
    by_cases hs : stag = true
    · exfalso
      unfold bookCourt at he
      simp only [hs] at he
      split_ifs at he
      simp_all
    · simpa using hs

theorem bookCourt_error_policy_witness :
    bookCourt true
      { enumThrows := false, slotElems := [], buddySucceeds := true, buttons := [] }
      "2:30 PM" = Except.ok false :=
  (bookCourt_error_policy true
    { enumThrows := false, slotElems := [], buddySucceeds := true, buttons := [] }
    "2:30 PM").2.1 rfl rfl

/-- The calendar-sync invocations contained in a tool trace. -/
def isCalendarAddEvent : ToolEvent → Bool
  | ToolEvent.calendarAdd _ _ _ _ => true
  | _ => false

/-- C2 counterexample: invoking the tool with action = book and no time on a
fresh (uninitialized) manager does return the validation-error string, but the
trace shows the lazily-initialized browser was started (init + login) before
the failure was returned, contradicting "the browser is not started". -/
theorem book_missing_time_starts_browser :
    toolFunc
      { initResult := Except.ok (),
        parsedDate := some { formatted := "Wednesday, February 11, 2026", dayOfWeek := "Wednesday" },
        navResult := Except.ok (),
        page := { m1 := [], m2 := [], m3 := [], divs := [] },
        bookSuccess := false, calendarResult := false }
      { initialized := false, calendarInitialized := false }
      ToolAction.book "tennis" "tomorrow" none
      = ("Error: Time is required for booking. Please specify a time slot.",
         { initialized := true, calendarInitialized := false },
         [ToolEvent.browserStart]) := by decide

/-- C2 (amended): with initialization and date parsing succeeding, a book call
with no time returns the validation-error string with no navigation or booking
interaction — but only after ensureInitialized has started the browser (the
trace gains a browserStart event whenever the manager was uninitialized). -/
theorem book_missing_time_validation (env : ToolEnv) (st : ToolState)
    (sport dateStr : String) (pd : ParsedDate)
    (hinit : env.initResult = Except.ok ()) (hpd : env.parsedDate = some pd) :
    toolFunc env st ToolAction.book sport dateStr none
      = ("Error: Time is required for booking. Please specify a time slot.",
         { st with initialized := true },
         if st.initialized then [] else [ToolEvent.browserStart]) := by
  unfold toolFunc
  cases hi : st.initialized <;> simp [hi, hinit, hpd]

theorem book_missing_time_validation_witness :
    toolFunc
      { initResult := Except.ok (),
        parsedDate := some { formatted := "Tuesday, February 10, 2026", dayOfWeek := "Tuesday" },
        navResult := Except.ok (),
        page := { m1 := [], m2 := [], m3 := [], divs := [] },
        bookSuccess := false, calendarResult := false }
      { initialized := true, calendarInitialized := true }
      ToolAction.book "pickleball" "today" none
      = ("Error: Time is required for booking. Please specify a time slot.",
         { initialized := true, calendarInitialized := true },
         if ({ initialized := true, calendarInitialized := true } : ToolState).initialized
           then [] else [ToolEvent.browserStart]) :=
  book_missing_time_validation _ _ "pickleball" "today" _ rfl rfl

/-- C5 counterexample: a book action whose bookCourt returns true but whose
manager has `calendarInitialized = false` tears the browser down yet never
invokes the calendar-sync collaborator — the trace ends at browserClose with
no calendarAdd, contradicting "invoked exactly once". -/
theorem booking_success_calendar_skipped :
    toolFunc
      { initResult := Except.ok (),
        parsedDate := some { formatted := "Saturday, February 7, 2026", dayOfWeek := "Saturday" },
        navResult := Except.ok (),
        page := { m1 := [], m2 := [], m3 := [], divs := [] },
        bookSuccess := true, calendarResult := true }
      { initialized := true, calendarInitialized := false }
      ToolAction.book "tennis" "saturday" (some "2:30 PM")
      = ("Successfully booked tennis court on Saturday, February 7, 2026 at 2:30 PM with Samuel Wang!",
         { initialized := false, calendarInitialized := false },
         [ToolEvent.navigate "tennis" "Saturday", ToolEvent.bookAttempt "2:30 PM",
          ToolEvent.browserClose]) := by decide

/-- C5 (amended): when bookCourt returns true the browser session is closed
(`initialized` becomes false, the browserClose event precedes any calendar
call and the result), and the calendar-sync collaborator is invoked exactly
once with the booked sport, date, time and companion when the calendar service
initialized successfully — and zero times otherwise. -/
theorem booking_success_teardown_calendar (env : ToolEnv) (st : ToolState)
    (sport dateStr t : String) (pd : ParsedDate)
    (hinit : env.initResult = Except.ok ()) (hpd : env.parsedDate = some pd)
    (hnav : env.navResult = Except.ok ()) (hbook : env.bookSuccess = true) :
    (toolFunc env st ToolAction.book sport dateStr (some t)).2.1.initialized = false
    ∧ (st.calendarInitialized = true →
        (toolFunc env st ToolAction.book sport dateStr (some t)).2.2
          = (if st.initialized then [] else [ToolEvent.browserStart])
            ++ [ToolEvent.navigate sport pd.dayOfWeek, ToolEvent.bookAttempt t,
                ToolEvent.browserClose, ToolEvent.calendarAdd sport pd t "Samuel Wang"]
        ∧ ((toolFunc env st ToolAction.book sport dateStr (some t)).2.2.filter
             isCalendarAddEvent) = [ToolEvent.calendarAdd sport pd t "Samuel Wang"])
    ∧ (st.calendarInitialized = false →
        (toolFunc env st ToolAction.book sport dateStr (some t)).2.2
          = (if st.initialized then [] else [ToolEvent.browserStart])
            ++ [ToolEvent.navigate sport pd.dayOfWeek, ToolEvent.bookAttempt t,
                ToolEvent.browserClose]
        ∧ ((toolFunc env st ToolAction.book sport dateStr (some t)).2.2.filter
             isCalendarAddEvent) = []) := by
  unfold toolFunc
  cases hi : st.initialized <;> cases hc : st.calendarInitialized <;>
    cases hcr : env.calendarResult <;>
      simp [hi, hc, hcr, hinit, hpd, hnav, hbook, isCalendarAddEvent]

theorem booking_success_teardown_calendar_witness :
    (toolFunc
      { initResult := Except.ok (),
        parsedDate := some { formatted := "Saturday, February 7, 2026", dayOfWeek := "Saturday" },
        navResult := Except.ok (),
        page := { m1 := [], m2 := [], m3 := [], divs := [] },
        bookSuccess := true, calendarResult := true }
      { initialized := false, calendarInitialized := true }
      ToolAction.book "tennis" "saturday" (some "2:30 PM")).2.1.initialized = false
    ∧ (({ initialized := false, calendarInitialized := true } : ToolState).calendarInitialized = true →
        (toolFunc
          { initResult := Except.ok (),
            parsedDate := some { formatted := "Saturday, February 7, 2026", dayOfWeek := "Saturday" },
            navResult := Except.ok (),
            page := { m1 := [], m2 := [], m3 := [], divs := [] },
            bookSuccess := true, calendarResult := true }
          { initialized := false, calendarInitialized := true }
          ToolAction.book "tennis" "saturday" (some "2:30 PM")).2.2
          = (if ({ initialized := false, calendarInitialized := true } : ToolState).initialized
              then [] else [ToolEvent.browserStart])
            ++ [ToolEvent.navigate "tennis"
                  ({ formatted := "Saturday, February 7, 2026", dayOfWeek := "Saturday" } : ParsedDate).dayOfWeek,
                ToolEvent.bookAttempt "2:30 PM", ToolEvent.browserClose,
                ToolEvent.calendarAdd "tennis"
                  { formatted := "Saturday, February 7, 2026", dayOfWeek := "Saturday" }
                  "2:30 PM" "Samuel Wang"]
        ∧ ((toolFunc
              { initResult := Except.ok (),
                parsedDate := some { formatted := "Saturday, February 7, 2026", dayOfWeek := "Saturday" },
                navResult := Except.ok (),
                page := { m1 := [], m2 := [], m3 := [], divs := [] },
                bookSuccess := true, calendarResult := true }
              { initialized := false, calendarInitialized := true }
              ToolAction.book "tennis" "saturday" (some "2:30 PM")).2.2.filter
                isCalendarAddEvent)
            = [ToolEvent.calendarAdd "tennis"
                { formatted := "Saturday, February 7, 2026", dayOfWeek := "Saturday" }
                "2:30 PM" "Samuel Wang"])
    ∧ (({ initialized := false, calendarInitialized := true } : ToolState).calendarInitialized = false →
        (toolFunc
          { initResult := Except.ok (),
            parsedDate := some { formatted := "Saturday, February 7, 2026", dayOfWeek := "Saturday" },
            navResult := Except.ok (),
            page := { m1 := [], m2 := [], m3 := [], divs := [] },
            bookSuccess := true, calendarResult := true }
          { initialized := false, calendarInitialized := true }
          ToolAction.book "tennis" "saturday" (some "2:30 PM")).2.2
          = (if ({ initialized := false, calendarInitialized := true } : ToolState).initialized
              then [] else [ToolEvent.browserStart])
            ++ [ToolEvent.navigate "tennis"
                  ({ formatted := "Saturday, February 7, 2026", dayOfWeek := "Saturday" } : ParsedDate).dayOfWeek,
                ToolEvent.bookAttempt "2:30 PM", ToolEvent.browserClose]
        ∧ ((toolFunc
              { initResult := Except.ok (),
                parsedDate := some { formatted := "Saturday, February 7, 2026", dayOfWeek := "Saturday" },
                navResult := Except.ok (),
                page := { m1 := [], m2 := [], m3 := [], divs := [] },
                bookSuccess := true, calendarResult := true }
              { initialized := false, calendarInitialized := true }
              ToolAction.book "tennis" "saturday" (some "2:30 PM")).2.2.filter
                isCalendarAddEvent) = []) :=
  booking_success_teardown_calendar _ _ "tennis" "saturday" "2:30 PM" _ rfl rfl rfl rfl

/-- C7: when every one of the four enumeration strategies yields zero slot
elements, getAvailableTimes returns the empty list (not an error), and the
query_times branch of the tool maps it to the empty-availability message. -/
theorem query_empty_availability (env : ToolEnv) (st : ToolState)
    (sport dateStr : String) (time : Option String) (pd : ParsedDate)
    (hinit : env.initResult = Except.ok ()) (hpd : env.parsedDate = some pd)
    (hnav : env.navResult = Except.ok ())
    (h1 : env.page.m1 = []) (h2 : env.page.m2 = []) (h3 : env.page.m3 = [])
    (h4 : method4 env.page.divs = []) :
    getAvailableTimes env.page = []
    ∧ (toolFunc env st ToolAction.query_times sport dateStr time).1
        = s!"No available {sport} courts on {pd.formatted}." := by
  have hempty : getAvailableTimes env.page = [] := by
    unfold getAvailableTimes timeSlotElements
    rw [h1, h2, h3, h4]
    simp [collectTimes, dedupeJS, dedupeGo]
  refine ⟨hempty, ?_⟩
  unfold toolFunc
  cases hi : st.initialized <;> simp [hi, hinit, hpd, hnav, hempty]

theorem query_empty_availability_witness :
    getAvailableTimes
      { m1 := [], m2 := [],  m3 := [],
        divs := [{ text := some "not a slot", visible := true }] } = []
    ∧ (toolFunc
        { initResult := Except.ok (),
          parsedDate := some { formatted := "Saturday, February 7, 2026", dayOfWeek := "Saturday" },
          navResult := Except.ok (),
          page := { m1 := [], m2 := [], m3 := [],
                    divs := [{ text := some "not a slot", visible := true }] },
          bookSuccess := false, calendarResult := false }
        { initialized := true, calendarInitialized := false }
        ToolAction.query_times "tennis" "saturday" none).1
      = s!"No available tennis courts on Saturday, February 7, 2026." :=
  query_empty_availability
    { initResult := Except.ok (),
      parsedDate := some { formatted := "Saturday, February 7, 2026", dayOfWeek := "Saturday" },
      navResult := Except.ok (),
      page := { m1 := [], m2 := [], m3 := [],
                divs := [{ text := some "not a slot", visible := true }] },
      bookSuccess := false, calendarResult := false }
    { initialized := true, calendarInitialized := false }
    "tennis" "saturday" none
    { formatted := "Saturday, February 7, 2026", dayOfWeek := "Saturday" }
    rfl rfl rfl rfl rfl rfl (by decide)

theorem getAvailableTimes_invariants_witness :
    jsTrim "2:30 PM" = "2:30 PM" ∧ containsColon "2:30 PM" = true ∧
      containsAMPM "2:30 PM" = true ∧
      (getAvailableTimes
        { m1 := [{ text := some " 2:30 PM ", visible := true },
                 { text := some " 2:30 PM ", visible := true }],
          m2 := [], m3 := [], divs := [] }).count "2:30 PM" = 1 :=
  getAvailableTimes_invariants
    { m1 := [{ text := some " 2:30 PM ", visible := true },
             { text := some " 2:30 PM ", visible := true }],
      m2 := [], m3 := [], divs := [] } "2:30 PM" (by decide)
